import Mathlib

/-!
Verification of the Pongverse learning core: a shallow embedding of the
prioritized replay buffer, the Double-DQN agent (`src/ai/dqn_agent.py`) and
the tabular Q-learning agent (`src/pong_ai.py`), together with proofs of the
specified properties.  Floating-point values are modelled as rationals; the
random sources (python `random`, `np.random.choice`) are modelled as explicit
input streams; the real-exponent power function of floats is modelled as an
explicit function parameter `pw`.  The optimization path is modelled as the
program executes it: line 262's `(B,)`-versus-`(B,1)` broadcast yields a
`(B,B)` target matrix, and the loss line then raises `NameError` because
`F` (`torch.nn.functional`) is never imported, aborting every
sufficiently-full call before any state mutation.
-/

namespace Pongverse

/-- Python `max` over a non-empty sequence (used on the numpy priority
array); returns 0 on the empty list, a case the source never reaches. -/
def pyMax : List ℚ → ℚ
  | [] => 0
  | x :: xs => xs.foldl max x

/-- Index of the first maximal element of a list, the behaviour of
`tensor.max(dim)[1]` / tie-break at the lowest index. -/
def argmaxIdx : List ℚ → ℕ
  | [] => 0
  | [_] => 0
  | x :: y :: xs => if x < pyMax (y :: xs) then argmaxIdx (y :: xs) + 1 else 0

/-- One `(state, action, reward, next_state, done)` tuple, the
`Transition` namedtuple of `dqn_agent.py`. -/
structure Transition where
  state : List ℚ
  action : ℕ
  reward : ℚ
  next_state : List ℚ
  done : Bool
deriving Repr, DecidableEq

instance : Inhabited Transition := ⟨⟨[], 0, 0, [], false⟩⟩

/-- Errors that `PrioritizedReplayBuffer.sample` can surface: the
`ValueError` raised on an empty buffer (the spec's EmptyBufferError), and
the validation error `np.random.choice` raises on a malformed probability
vector. -/
inductive BufferError where
  | emptyBuffer
  | invalidProbabilities
deriving Repr, DecidableEq

/-- The `PrioritizedReplayBuffer` of `dqn_agent.py`: capacity, priority
exponent alpha, the full `np.zeros(capacity)` priority array, the list of
stored transitions, and the write cursor `position`. -/
structure PrioritizedReplayBuffer where
  capacity : ℕ
  alpha : ℚ
  priorities : List ℚ
  buffer : List Transition
  position : ℕ
deriving Repr, DecidableEq

/-- `PrioritizedReplayBuffer.__init__`. -/
def PrioritizedReplayBuffer.mk0 (capacity : ℕ) (alpha : ℚ) : PrioritizedReplayBuffer :=
  ⟨capacity, alpha, List.replicate capacity 0, [], 0⟩

/-- `PrioritizedReplayBuffer.push`: insert with maximum priority (1.0 when
the buffer is empty) at the write cursor, overwriting once full, then
advance the cursor modulo capacity. -/
def PrioritizedReplayBuffer.push (b : PrioritizedReplayBuffer) (t : Transition) :
    PrioritizedReplayBuffer :=
  let max_priority := if b.buffer.isEmpty then 1 else pyMax b.priorities
  { b with
    buffer := if b.buffer.length < b.capacity then b.buffer ++ [t] else b.buffer.set b.position t
    priorities := b.priorities.set b.position max_priority
    position := (b.position + 1) % b.capacity }

/-- A sequence of pushes, starting from a given buffer. -/
def PrioritizedReplayBuffer.pushAll (b : PrioritizedReplayBuffer) (ts : List Transition) :
    PrioritizedReplayBuffer :=
  ts.foldl PrioritizedReplayBuffer.push b

/-- Model of `np.random.choice(n, k, p=p)`: validates the probability
vector (length `n`, non-negative entries, total mass 1) and then draws `k`
indices in `[0, n)` with replacement, the draws being supplied by the
random stream. -/
def npRandomChoice (n k : ℕ) (p : List ℚ) (stream : ℕ → ℕ) :
    Except BufferError (List ℕ) :=
  if p.length = n ∧ (∀ x ∈ p, 0 ≤ x) ∧ p.sum = 1 then
    .ok ((List.range k).map fun i => stream i % n)
  else .error .invalidProbabilities

/-- `PrioritizedReplayBuffer.sample`: raises on an empty buffer, otherwise
samples `batch_size` indices with replacement from the distribution
proportional to `priority ** alpha` over the held transitions, and returns
the batch, the indices and the max-normalized importance weights
`(N * P(i)) ** (-beta)`.  `pw` models the float power function `**`. -/
def PrioritizedReplayBuffer.sample (pw : ℚ → ℚ → ℚ) (stream : ℕ → ℕ)
    (b : PrioritizedReplayBuffer) (batch_size : ℕ) (beta : ℚ) :
    Except BufferError (List Transition × List ℕ × List ℚ) :=
  if b.buffer.length = 0 then .error .emptyBuffer
  else
    let priorities := b.priorities.take b.buffer.length
    let raw := priorities.map fun q => pw q b.alpha
    let probabilities := raw.map fun q => q / raw.sum
    match npRandomChoice b.buffer.length batch_size probabilities stream with
    | .error e => .error e
    | .ok indices =>
      let weights0 := indices.map fun i =>
        pw ((b.buffer.length : ℚ) * probabilities.getD i 0) (-beta)
      let weights := weights0.map fun w => w / pyMax weights0
      let batch := indices.map fun i => b.buffer.getD i default
      .ok (batch, indices, weights)

/-- `PrioritizedReplayBuffer.update_priorities`: overwrite the stored
priority at each given index. -/
def PrioritizedReplayBuffer.update_priorities (b : PrioritizedReplayBuffer)
    (indices : List ℕ) (ps : List ℚ) : PrioritizedReplayBuffer :=
  { b with priorities := (indices.zip ps).foldl (fun acc ip => acc.set ip.1 ip.2) b.priorities }

/-- One `nn.Linear` layer: a weight matrix (one row per output) and a bias
vector. -/
structure LinearLayer where
  weight : List (List ℚ)
  bias : List ℚ
deriving Repr, DecidableEq

/-- Dot product of a weight row with the input. -/
def dot (w x : List ℚ) : ℚ := ((w.zip x).map fun p => p.1 * p.2).sum

/-- Application of a linear layer to an input vector. -/
def LinearLayer.apply (l : LinearLayer) (x : List ℚ) : List ℚ :=
  (l.weight.zip l.bias).map fun wb => dot wb.1 x + wb.2

/-- Elementwise `nn.ReLU`. -/
def relu (x : List ℚ) : List ℚ := x.map fun v => max v 0

/-- The `DQNetwork` of `dqn_agent.py`: Linear, ReLU, Linear, ReLU, Linear. -/
structure DQNetwork where
  fc1 : LinearLayer
  fc2 : LinearLayer
  fc3 : LinearLayer
deriving Repr, DecidableEq

/-- `DQNetwork.forward`. -/
def DQNetwork.forward (net : DQNetwork) (x : List ℚ) : List ℚ :=
  net.fc3.apply (relu (net.fc2.apply (relu (net.fc1.apply x))))

/-- The `DQNConfig` dataclass with its default hyperparameters. -/
structure DQNConfig where
  state_dim : ℕ := 6
  action_dim : ℕ := 3
  hidden_dim : ℕ := 128
  learning_rate : ℚ := 1/1000
  gamma : ℚ := 99/100
  buffer_size : ℕ := 100000
  batch_size : ℕ := 64
  target_update : ℕ := 1000
  epsilon_start : ℚ := 1
  epsilon_end : ℚ := 1/100
  epsilon_decay : ℚ := 995/1000
  priority_alpha : ℚ := 6/10
  priority_beta : ℚ := 4/10
  priority_epsilon : ℚ := 1/1000000
deriving Repr, DecidableEq

/-- The mutable state of a `DQNAgent`: the two networks, the optimizer's
internal state (abstracted as a rational vector), the exploration rate,
the step counter and the replay buffer. -/
structure DQNAgent where
  config : DQNConfig
  policy_net : DQNetwork
  target_net : DQNetwork
  optimizerState : List ℚ
  epsilon : ℚ
  steps : ℕ
  memory : PrioritizedReplayBuffer
deriving Repr, DecidableEq

/-- `DQNAgent.__init__`: the freshly (randomly) initialized online network
is supplied as an argument; the target network starts as its exact copy,
epsilon at `epsilon_start`, the step counter at 0, the buffer empty. -/
def DQNAgent.init (config : DQNConfig) (net : DQNetwork) (opt0 : List ℚ) : DQNAgent :=
  { config := config
    policy_net := net
    target_net := net
    optimizerState := opt0
    epsilon := config.epsilon_start
    steps := 0
    memory := .mk0 config.buffer_size config.priority_alpha }

/-- `DQNAgent.select_action`: epsilon-greedy.  `r` models the draw of
`random.random()` (uniform in `[0,1)`), `randDraw` the raw draw behind
`random.randrange(action_dim)` (reduced modulo `action_dim` per its
contract). -/
def DQNAgent.select_action (a : DQNAgent) (r : ℚ) (randDraw : ℕ) (state : List ℚ) : ℕ :=
  if r < a.epsilon then randDraw % a.config.action_dim
  else argmaxIdx (a.policy_net.forward state)

/-- Line 260 of `dqn_agent.py`: per-transition argmax action of the online
network on the next state. -/
def nextActions (policy : DQNetwork) (batch : List Transition) : List ℕ :=
  batch.map fun t => argmaxIdx (policy.forward t.next_state)

/-- Line 261: `target_net(next_state).gather(1, next_actions)`. -/
def gatherValues (target : DQNetwork) (batch : List Transition) (acts : List ℕ) : List ℚ :=
  (batch.zip acts).map fun p => (target.forward p.1.next_state).getD p.2 0

/-- Conversion of the stored `done` flag by `torch.FloatTensor`. -/
def doneToFloat (b : Bool) : ℚ := if b then 1 else 0

/-- Line 263: `policy_net(state).gather(1, action)`, a `(B, 1)` column
holding one entry per transition. -/
def currentQValues (policy : DQNetwork) (batch : List Transition) : List ℚ :=
  batch.map fun t => (policy.forward t.state).getD t.action 0

/-- Line 262 as executed: `reward_batch` and `done_batch` have shape `(B,)`
while `next_state_values` (from `gather`) has shape `(B, 1)`, so
`reward_batch + (1 - done_batch) * gamma * next_state_values` broadcasts
to a `(B, B)` matrix: row `i` comes from `next_state_values[i]`, column
`j` from transition `j`, entry `[i, j] = reward_j + (1 - done_j) * gamma
* v_i`. -/
def expectedQMatrix (gamma : ℚ) (batch : List Transition)
    (next_state_values : List ℚ) : List (List ℚ) :=
  next_state_values.map fun v =>
    batch.map fun t => t.reward + (1 - doneToFloat t.done) * gamma * v

/-- Line 264 as executed: the `(B, B)` expected-value matrix minus the
`(B, 1)` current-value column broadcasts again, giving the `(B, B)`
matrix of absolute differences. -/
def tdErrorsMatrix (expected : List (List ℚ)) (current : List ℚ) :
    List (List ℚ) :=
  (expected.zip current).map fun p => p.1.map fun e => |e - p.2|

/-- Python exceptions observable from `optimize_model`: the errors
propagated out of `sample`, and the `NameError` raised at the loss line
because `F` is never imported in `dqn_agent.py`. -/
inductive OptError where
  | bufferError (e : BufferError)
  | nameError (name : String)
deriving Repr, DecidableEq

/-- `DQNAgent.optimize_model` (lines 250-285) as the program actually
executes.  The underfull pre-check returns 0.0; otherwise the batch is
sampled and lines 259-264 are evaluated — including the `(B, B)`
broadcast of line 262 — and then line 265 evaluates `F.smooth_l1_loss`.
`F` is never imported, so the call raises `NameError: name 'F' is not
defined` there, before the gradient step, the priority write-back, the
target sync, the epsilon decay and the step increment: the agent is left
unmutated and the exception propagates to the caller (the `.error`
result). -/
def DQNAgent.optimize_model (a : DQNAgent) (pw : ℚ → ℚ → ℚ) (stream : ℕ → ℕ) :
    Except OptError (ℚ × DQNAgent) :=
  if a.memory.buffer.length < a.config.batch_size then .ok (0, a)
  else
    match a.memory.sample pw stream a.config.batch_size a.config.priority_beta with
    | .error e => .error (.bufferError e)
    | .ok (batch, _indices, _weights) =>
      let next_actions := nextActions a.policy_net batch
      let next_state_values := gatherValues a.target_net batch next_actions
      let expected_q_values := expectedQMatrix a.config.gamma batch next_state_values
      let current_q_values := currentQValues a.policy_net batch
      let _td_errors := tdErrorsMatrix expected_q_values current_q_values
      .error (.nameError "F")

/-- The checkpoint dictionary read back by `torch.load`; a `none` field
models a missing key (`KeyError` on subscript). -/
structure Checkpoint where
  policy_net : Option DQNetwork
  target_net : Option DQNetwork
  optimizer : Option (List ℚ)
  epsilon : Option ℚ
  steps : Option ℕ
deriving Repr, DecidableEq

/-- The python exceptions `load_model` can re-raise: a failure of
`torch.load` itself, or a `KeyError` on a missing checkpoint field. -/
inductive PyError where
  | loadFailure
  | keyError (key : String)
deriving Repr, DecidableEq

/-- `DQNAgent.load_model` (lines 219-231).  `file` is the result of
`torch.load` (`none` when the file is unreadable).  The source assigns the
checkpoint fields one by one inside a `try` whose handler logs and
re-raises the original exception, so the returned pair carries the agent
as mutated up to the failure point together with the propagated error. -/
def DQNAgent.load_model (a : DQNAgent) (file : Option Checkpoint) :
    DQNAgent × Option PyError :=
  match file with
  | none => (a, some .loadFailure)
  | some ckpt =>
    match ckpt.policy_net with
    | none => (a, some (.keyError "policy_net"))
    | some p =>
      let a1 := { a with policy_net := p }
      match ckpt.target_net with
      | none => (a1, some (.keyError "target_net"))
      | some t =>
        let a2 := { a1 with target_net := t }
        match ckpt.optimizer with
        | none => (a2, some (.keyError "optimizer"))
        | some o =>
          let a3 := { a2 with optimizerState := o }
          match ckpt.epsilon with
          | none => (a3, some (.keyError "epsilon"))
          | some e =>
            let a4 := { a3 with epsilon := e }
            match ckpt.steps with
            | none => (a4, some (.keyError "steps"))
            | some s => ({ a4 with steps := s }, none)

/-- A dense numpy array: its shape and its flattened (row-major) data. -/
structure NpArray where
  shape : List ℕ
  data : List ℚ
deriving Repr, DecidableEq

/-- `np.zeros(shape)`. -/
def npZeros (shape : List ℕ) : NpArray := ⟨shape, List.replicate shape.prod 0⟩

/-- Numpy indexing errors: indexing a `k`-dimensional array with more than
`k` indices, or an index outside its axis. -/
inductive NpError where
  | tooManyIndices
  | outOfBounds
deriving Repr, DecidableEq

/-- Resolution of one (possibly negative, python-style) index against one
axis length. -/
def npIndex (dim : ℕ) (i : ℤ) : Option ℕ :=
  if 0 ≤ i ∧ i < (dim : ℤ) then some i.toNat
  else if -(dim : ℤ) ≤ i ∧ i < 0 then some (i + dim).toNat
  else none

/-- Resolution of a tuple of indices against the leading axes. -/
def resolveIdx : List ℕ → List ℤ → Option (List ℕ)
  | _, [] => some []
  | [], _ :: _ => none
  | d :: ds, i :: is =>
    match npIndex d i, resolveIdx ds is with
    | some j, some js => some (j :: js)
    | _, _ => none

/-- Row-major flat offset of a (possibly partial) resolved index tuple. -/
def flatIndex : List ℕ → List ℕ → ℕ
  | _ :: ss, i :: is => i * ss.prod + flatIndex ss is
  | _, _ => 0

/-- Reading `arr[idx]` followed by `np.max` over the resulting slice (for a
full-length `idx` the slice is the single addressed scalar).  Indexing with
more indices than the array has dimensions raises, as in numpy. -/
def npSliceMax (arr : NpArray) (idx : List ℤ) : Except NpError ℚ :=
  if arr.shape.length < idx.length then .error .tooManyIndices
  else
    match resolveIdx (arr.shape.take idx.length) idx with
    | none => .error .outOfBounds
    | some js =>
      let start := flatIndex arr.shape js
      let count := (arr.shape.drop idx.length).prod
      .ok (pyMax ((arr.data.drop start).take count))

/-- Scalar assignment `arr[idx] = v`.  The embedded code only reaches this
with a full-length index tuple; numpy's broadcast assignment for shorter
tuples is outside the behaviour exercised here. -/
def npSetScalar (arr : NpArray) (idx : List ℤ) (v : ℚ) : Except NpError NpArray :=
  if arr.shape.length < idx.length then .error .tooManyIndices
  else
    match resolveIdx (arr.shape.take idx.length) idx with
    | none => .error .outOfBounds
    | some js => .ok ⟨arr.shape, arr.data.set (flatIndex arr.shape js) v⟩

/-- Constants of `pong_ai.py`. -/
def SCREEN_WIDTH : ℚ := 800

/-- Screen height constant of `pong_ai.py`. -/
def SCREEN_HEIGHT : ℚ := 500

/-- Ball speed constant of `pong_ai.py`. -/
def BALL_SPEED : ℚ := 7

/-- `STATE_BINS = (12, 12, 6, 6)` of `pong_ai.py`. -/
def STATE_BINS : List ℕ := [12, 12, 6, 6]

/-- `ACTIONS = [0, 1, 2]` of `pong_ai.py`. -/
def ACTIONS : List ℕ := [0, 1, 2]

/-- Tabular learning-rate `ALPHA`. -/
def ALPHA : ℚ := 1/10

/-- Tabular discount `GAMMA`. -/
def GAMMA : ℚ := 95/100

/-- Tabular `EPSILON_START`. -/
def EPSILON_START : ℚ := 1

/-- Tabular `EPSILON_MIN`. -/
def EPSILON_MIN : ℚ := 2/100

/-- Tabular `EPSILON_DECAY`. -/
def EPSILON_DECAY : ℚ := 998/1000

/-- Python `int()` conversion: truncation toward zero. -/
def pyInt (q : ℚ) : ℤ := if 0 ≤ q then ⌊q⌋ else ⌈q⌉

/-- The ball fields read by `QAgent.discretize_state`. -/
structure BallState where
  x : ℚ
  y : ℚ
  vx : ℚ
  vy : ℚ
deriving Repr, DecidableEq

/-- The paddle field read by `QAgent.discretize_state`. -/
structure PaddlePos where
  y : ℚ
deriving Repr, DecidableEq

/-- The tabular `QAgent` of `pong_ai.py`. -/
structure QAgent where
  q_table : NpArray
  alpha : ℚ
  gamma : ℚ
  epsilon : ℚ
  epsilon_min : ℚ
  epsilon_decay : ℚ
deriving Repr, DecidableEq

/-- `QAgent.__init__`: `np.zeros(STATE_BINS + (len(ACTIONS),))` and the
module-level hyperparameters. -/
def QAgent.init : QAgent :=
  ⟨npZeros (STATE_BINS ++ [ACTIONS.length]), ALPHA, GAMMA, EPSILON_START, EPSILON_MIN,
    EPSILON_DECAY⟩

/-- `QAgent.discretize_state`: linear scaling of each observation into its
bin range followed by `int()` truncation; note the source produces a
5-component tuple (the paddle component reuses `STATE_BINS[1]`). -/
def QAgent.discretize_state (ball : BallState) (paddle : PaddlePos) : List ℤ :=
  [ pyInt (ball.x * ((STATE_BINS.getD 0 0 : ℕ) : ℚ) / SCREEN_WIDTH),
    pyInt (ball.y * ((STATE_BINS.getD 1 0 : ℕ) : ℚ) / SCREEN_HEIGHT),
    pyInt ((ball.vx + BALL_SPEED) * ((STATE_BINS.getD 2 0 : ℕ) : ℚ) / (2 * BALL_SPEED)),
    pyInt ((ball.vy + BALL_SPEED) * ((STATE_BINS.getD 3 0 : ℕ) : ℚ) / (2 * BALL_SPEED)),
    pyInt (paddle.y * ((STATE_BINS.getD 1 0 : ℕ) : ℚ) / SCREEN_HEIGHT) ]

/-- `QAgent.update` (lines 133-136): read `Q[s + (a,)]`, read
`np.max(Q[s'])`, write back the one-step Q-learning target.  Each numpy
access can raise, and the first raise propagates. -/
def QAgent.update (ag : QAgent) (old_state : List ℤ) (action : ℤ) (reward : ℚ)
    (new_state : List ℤ) : Except NpError QAgent :=
  match npSliceMax ag.q_table (old_state ++ [action]) with
  | .error e => .error e
  | .ok old_q =>
    match npSliceMax ag.q_table new_state with
    | .error e => .error e
    | .ok future_q =>
      match npSetScalar ag.q_table (old_state ++ [action])
          (old_q + ag.alpha * (reward + ag.gamma * future_q - old_q)) with
      | .error e => .error e
      | .ok t => .ok { ag with q_table := t }

/-! Helper lemmas about `pyMax`, `argmaxIdx`, list surgery and modular
arithmetic, shared by the claim theorems below. -/

theorem foldl_max_init_le (B : List ℚ) (a : ℚ) : a ≤ B.foldl max a := by
  induction B generalizing a with
  | nil => exact le_refl a
  | cons x xs ih => exact le_trans (le_max_left a x) (ih (max a x))

theorem foldl_max_eq_of_le (B : List ℚ) (a : ℚ) (h : ∀ x ∈ B, x ≤ a) :
    B.foldl max a = a := by
  induction B with
  | nil => rfl
  | cons x xs ih =>
    have hx : x ≤ a := h x (List.mem_cons_self x xs)
    show List.foldl max (max a x) xs = a
    rw [max_eq_left hx]
    exact ih fun y hy => h y (List.mem_cons_of_mem x hy)

theorem le_pyMax_head (x : ℚ) (xs : List ℚ) : x ≤ pyMax (x :: xs) :=
  foldl_max_init_le xs x

theorem pyMax_nonneg (A : List ℚ) (hA : A ≠ []) (h : ∀ x ∈ A, 0 ≤ x) : 0 ≤ pyMax A := by
  match A with
  | x :: xs => exact le_trans (h x (List.mem_cons_self x xs)) (le_pyMax_head x xs)

theorem pyMax_append_zeros (A B : List ℚ) (hA : A ≠ []) (hB : ∀ x ∈ B, x = 0)
    (hnn : 0 ≤ pyMax A) : pyMax (A ++ B) = pyMax A := by
  match A with
  | x :: xs =>
    show List.foldl max x (xs ++ B) = pyMax (x :: xs)
    rw [List.foldl_append]
    exact foldl_max_eq_of_le B (pyMax (x :: xs)) fun y hy => (hB y hy) ▸ hnn

theorem argmaxIdx_lt : ∀ (l : List ℚ), l ≠ [] → argmaxIdx l < l.length
  | [], h => absurd rfl h
  | [_], _ => by simp [argmaxIdx]
  | x :: y :: xs, _ => by
    have ih := argmaxIdx_lt (y :: xs) (by simp)
    unfold argmaxIdx
    split
    · simp only [List.length_cons] at ih ⊢
      omega
    · simp

theorem LinearLayer.apply_length (l : LinearLayer) (x : List ℚ) :
    (l.apply x).length = min l.weight.length l.bias.length := by
  simp [LinearLayer.apply]

theorem succ_mod_of_lt (n C : ℕ) (h : n % C + 1 < C) : (n + 1) % C = n % C + 1 := by
  conv_lhs => rw [← Nat.div_add_mod n C, Nat.add_assoc, Nat.mul_add_mod]
  exact Nat.mod_eq_of_lt h

theorem succ_mod_of_eq (n C : ℕ) (h : n % C + 1 = C) : (n + 1) % C = 0 := by
  conv_lhs => rw [← Nat.div_add_mod n C, Nat.add_assoc, Nat.mul_add_mod, h]
  exact Nat.mod_self C


theorem succ_mod (n C : ℕ) : (n + 1) % C = (n % C + 1) % C := by
  conv_lhs => rw [← Nat.div_add_mod n C, Nat.add_assoc, Nat.mul_add_mod]

theorem tail_take {α : Type*} (l : List α) (k : ℕ) :
    (l.take k).tail = l.tail.take (k - 1) := by
  cases l with
  | nil => simp
  | cons x xs =>
    cases k with
    | zero => simp
    | succ k => simp

theorem set_at_length {α : Type*} (A B : List α) (t : α) (hB : B ≠ []) :
    (A ++ B).set A.length t = A ++ t :: B.tail := by
  rw [List.set_append, if_neg (lt_irrefl A.length), Nat.sub_self]
  cases B with
  | nil => exact absurd rfl hB
  | cons b bs => rfl

/-- Closed form of the ring buffer built by pushing the transitions of `L`
into a fresh buffer of capacity `C`: the stored list is `L` itself while
`L` fits, and otherwise the last `C` transitions of `L` arranged around
the write cursor `L.length % C`. -/
theorem pushAll_closed_form (C : ℕ) (hC : 0 < C) (al : ℚ) (L : List Transition) :
    ((PrioritizedReplayBuffer.mk0 C al).pushAll L).capacity = C ∧
    ((PrioritizedReplayBuffer.mk0 C al).pushAll L).position = L.length % C ∧
    ((PrioritizedReplayBuffer.mk0 C al).pushAll L).buffer =
      (if L.length ≤ C then L
       else L.drop (L.length - L.length % C) ++
         (L.drop (L.length - C)).take (C - L.length % C)) := by
  induction L using List.reverseRecOn with
  | nil =>
    refine ⟨rfl, ?_, ?_⟩
    · simp [PrioritizedReplayBuffer.pushAll, PrioritizedReplayBuffer.mk0]
    · simp [PrioritizedReplayBuffer.pushAll, PrioritizedReplayBuffer.mk0, hC.le]
  | append_singleton M t ih =>
    obtain ⟨ihcap, ihpos, ihbuf⟩ := ih
    have hstep : (PrioritizedReplayBuffer.mk0 C al).pushAll (M ++ [t]) =
        ((PrioritizedReplayBuffer.mk0 C al).pushAll M).push t := by
      simp [PrioritizedReplayBuffer.pushAll, List.foldl_append]
    set b := (PrioritizedReplayBuffer.mk0 C al).pushAll M with hb
    set n := M.length with hn
    have hcap' : (b.push t).capacity = b.capacity := by
      simp [PrioritizedReplayBuffer.push]
    have hpos' : (b.push t).position = (b.position + 1) % b.capacity := by
      simp [PrioritizedReplayBuffer.push]
    have hbuf' : (b.push t).buffer =
        if b.buffer.length < b.capacity then b.buffer ++ [t]
        else b.buffer.set b.position t := by
      simp [PrioritizedReplayBuffer.push]
    have hlen' : (M ++ [t]).length = n + 1 := by simp [hn]
    refine ⟨by rw [hstep, hcap', ihcap], ?_, ?_⟩
    · rw [hstep, hpos', ihpos, ihcap, hlen']
      exact (succ_mod n C).symm
    · rw [hstep, hbuf', hlen']
      by_cases hlt : n < C
      · -- still filling: the push appends
        have hbuf : b.buffer = M := by rw [ihbuf, if_pos hlt.le]
        have hfill : b.buffer.length < b.capacity := by
          rw [hbuf, ihcap]; exact hlt
        rw [if_pos hfill, hbuf, if_pos (by omega)]
      · -- full: the push overwrites at the cursor
        push_neg at hlt
        have hmC : n % C < C := Nat.mod_lt n hC
        have hbuf : b.buffer =
            M.drop (n - n % C) ++ (M.drop (n - C)).take (C - n % C) := by
          rcases eq_or_lt_of_le hlt with hEq | hGt
          · rw [ihbuf, if_pos (le_of_eq hEq.symm)]
            have hMC : M.length = C := by omega
            rw [← hEq, Nat.mod_self, Nat.sub_zero, Nat.sub_self, List.drop_zero,
              ← hMC, List.drop_length, List.nil_append, List.take_length]
          · rw [ihbuf, if_neg (by omega)]
        have hAlen : (M.drop (n - n % C)).length = n % C := by
          rw [List.length_drop]; omega
        have hBlen : ((M.drop (n - C)).take (C - n % C)).length = C - n % C := by
          rw [List.length_take, List.length_drop]; omega
        have hBne : (M.drop (n - C)).take (C - n % C) ≠ [] := by
          intro hcon
          rw [hcon] at hBlen
          simp at hBlen
          omega
        have hfull : ¬ b.buffer.length < b.capacity := by
          rw [hbuf, List.length_append, hAlen, hBlen, ihcap]; omega
        have hsg := set_at_length (M.drop (n - n % C))
          ((M.drop (n - C)).take (C - n % C)) t hBne
        rw [hAlen] at hsg
        have htail : ((M.drop (n - C)).take (C - n % C)).tail =
            (M.drop (n + 1 - C)).take (C - n % C - 1) := by
          rw [tail_take, List.tail_drop]
          have e : n - C + 1 = n + 1 - C := by omega
          rw [e]
        rw [if_neg hfull, if_neg (by omega), hbuf, ihpos, hsg, htail]
        by_cases hcase : n % C + 1 < C
        · -- the cursor stays inside the block of fresh entries
          rw [succ_mod_of_lt n C hcase]
          have e1 : n + 1 - (n % C + 1) = n - n % C := by omega
          have e2 : C - (n % C + 1) = C - n % C - 1 := by omega
          rw [e1, e2,
            List.drop_append_of_le_length (by omega),
            List.drop_append_of_le_length (by omega),
            List.take_append_of_le_length (by rw [List.length_drop]; omega)]
          simp
        · -- the cursor wraps around to slot 0
          have hcase2 : n % C + 1 = C := by omega
          rw [succ_mod_of_eq n C hcase2, Nat.sub_zero, Nat.sub_zero]
          have e0 : C - n % C - 1 = 0 := by omega
          have e1 : n - n % C = n + 1 - C := by omega
          rw [e0, List.take_zero, e1]
          have hdlen : ((M ++ [t]).drop (n + 1 - C)).length = C := by
            rw [List.length_drop, hlen']; omega
          have hd1 : (M ++ [t]).drop (n + 1) = [] := by
            rw [← hlen']; exact List.drop_length _
          have hd2 : ((M ++ [t]).drop (n + 1 - C)).take C = (M ++ [t]).drop (n + 1 - C) :=
            List.take_of_length_le (le_of_eq hdlen)
          have hd3 : (M ++ [t]).drop (n + 1 - C) = M.drop (n + 1 - C) ++ [t] :=
            List.drop_append_of_le_length (by omega)
          rw [hd1, hd2, hd3, List.nil_append]


/-! Fixtures for witnesses: a concrete power function, random stream and
miniature networks/agents. -/

/-- Identity in the base: a concrete instance of the power-function
parameter, used to evaluate the model on concrete inputs. -/
def pwId : ℚ → ℚ → ℚ := fun x _ => x

/-- A concrete random stream that always draws 0. -/
def streamZ : ℕ → ℕ := fun _ => 0

/-- A miniature three-layer network whose output layer has three rows, so
its forward pass returns a vector of length `action_dim = 3`. -/
def netW : DQNetwork :=
  ⟨⟨[], []⟩, ⟨[], []⟩, ⟨[[], [], []], [0, 0, 0]⟩⟩

/-- A small configuration for concrete runs. -/
def cfgW : DQNConfig := { batch_size := 1, buffer_size := 2, target_update := 1 }

/-- A concrete transition. -/
def tW1 : Transition := ⟨[0], 0, 1, [0], false⟩

/-! Claim C4. -/

theorem optimize_model_underfull (a : DQNAgent) (pw : ℚ → ℚ → ℚ) (stream : ℕ → ℕ)
    (h : a.memory.buffer.length < a.config.batch_size) :
    a.optimize_model pw stream = .ok (0, a) := by
  rw [DQNAgent.optimize_model, if_pos h]

/-- C4: whenever the Experience Store holds fewer than `batch_size`
transitions, `optimize()` returns 0.0, raises nothing, and leaves the
agent — replay buffer, priorities, write cursor, both networks, optimizer
state, epsilon and step counter — exactly unchanged (the result carries
the original agent record `a` itself). -/
theorem C4_optimize_noop_when_underfull (a : DQNAgent) (pw : ℚ → ℚ → ℚ)
    (stream : ℕ → ℕ)
    (h : a.memory.buffer.length < a.config.batch_size) :
    a.optimize_model pw stream = .ok (0, a) :=
  optimize_model_underfull a pw stream h

/-- Witness for C4 at a concrete agent with an empty buffer. -/
theorem C4_witness :
    (DQNAgent.init cfgW netW []).memory.buffer.length <
      (DQNAgent.init cfgW netW []).config.batch_size ∧
    (DQNAgent.init cfgW netW []).optimize_model pwId streamZ =
      .ok (0, DQNAgent.init cfgW netW []) :=
  ⟨by decide, C4_optimize_noop_when_underfull (DQNAgent.init cfgW netW []) pwId streamZ
    (by decide)⟩

/-! Claim C1. -/

/-- An identity-like miniature network with a single weight-1 path and a
single output action, so `forward [x] = [max x 0]`. -/
def netD : DQNetwork := ⟨⟨[[1]], [0]⟩, ⟨[[1]], [0]⟩, ⟨[[1]], [0]⟩⟩

/-- A non-terminal transition with reward 10 and next state `[1]`. -/
def tD1 : Transition := ⟨[1], 0, 10, [1], false⟩

/-- A non-terminal transition with reward 20 and next state `[2]`. -/
def tD2 : Transition := ⟨[2], 0, 20, [2], false⟩

/-- C1 (as the code behaves): line 262 broadcasts the `(B,)`-shaped reward
and done tensors against the `(B, 1)`-shaped `next_state_values` into a
`(B, B)` matrix with entry `[i, j] = reward_j + (1 - done_j) * gamma *
v_i`, so for every batch of two or more transitions `optimize()` does not
compute one bootstrap target per sampled transition.  On the concrete
2-transition batch below, lines 259-262 yield the 2x2 matrix
`[[21/2, 41/2], [11, 21]]`; its off-diagonal entry `[0, 1] = 41/2` mixes
transition 1's reward with transition 0's bootstrap value and differs
from both per-transition targets the claim asserts, `21/2` and `21`. -/
theorem C1_broadcast_mixes_transitions :
    nextActions netD [tD1, tD2] = [0, 0] ∧
    gatherValues netD [tD1, tD2] [0, 0] = [1, 2] ∧
    expectedQMatrix (1/2) [tD1, tD2] [1, 2] = [[21/2, 41/2], [11, 21]] ∧
    tD1.reward + (1 - doneToFloat tD1.done) * (1/2) *
      (netD.forward tD1.next_state).getD
        (argmaxIdx (netD.forward tD1.next_state)) 0 = 21/2 ∧
    tD2.reward + (1 - doneToFloat tD2.done) * (1/2) *
      (netD.forward tD2.next_state).getD
        (argmaxIdx (netD.forward tD2.next_state)) 0 = 21 ∧
    ((expectedQMatrix (1/2) [tD1, tD2] [1, 2]).getD 0 []).getD 1 0 ≠ 21/2 ∧
    ((expectedQMatrix (1/2) [tD1, tD2] [1, 2]).getD 0 []).getD 1 0 ≠ 21 := by
  norm_num [nextActions, gatherValues, expectedQMatrix, netD, tD1, tD2,
    DQNetwork.forward, LinearLayer.apply, relu, dot, argmaxIdx, pyMax,
    doneToFloat, max_def]

/-! Claim C2. -/

/-- C2: for a well-formed configuration (positive `action_dim`, output
layer of that width) `select_action` always returns an action in
`[0, action_dim)`; on the exploring branch (`r < epsilon`) it is the
uniform random draw, otherwise the argmax of the online network's
action values for the state. -/
theorem C2_select_action_range (a : DQNAgent) (r : ℚ) (randDraw : ℕ) (state : List ℚ)
    (hdim : 0 < a.config.action_dim)
    (hw : a.policy_net.fc3.weight.length = a.config.action_dim)
    (hb : a.policy_net.fc3.bias.length = a.config.action_dim) :
    a.select_action r randDraw state < a.config.action_dim ∧
    (r < a.epsilon → a.select_action r randDraw state = randDraw % a.config.action_dim) ∧
    (¬ r < a.epsilon →
      a.select_action r randDraw state = argmaxIdx (a.policy_net.forward state)) := by
  have hlen : (a.policy_net.forward state).length = a.config.action_dim := by
    rw [DQNetwork.forward, LinearLayer.apply_length, hw, hb, min_self]
  refine ⟨?_, ?_, ?_⟩
  · rw [DQNAgent.select_action]
    by_cases hr : r < a.epsilon
    · rw [if_pos hr]
      exact Nat.mod_lt randDraw hdim
    · rw [if_neg hr, ← hlen]
      exact argmaxIdx_lt _ (by
        intro hcon
        rw [hcon] at hlen
        simp at hlen
        omega)
  · intro hr
    rw [DQNAgent.select_action, if_pos hr]
  · intro hr
    rw [DQNAgent.select_action, if_neg hr]

/-- Witness for C2 on a concrete agent built from the miniature network. -/
theorem C2_witness :
    0 < (DQNAgent.init cfgW netW []).config.action_dim ∧
    (DQNAgent.init cfgW netW []).policy_net.fc3.weight.length =
      (DQNAgent.init cfgW netW []).config.action_dim ∧
    (DQNAgent.init cfgW netW []).select_action (1/2) 7 [0, 0] <
      (DQNAgent.init cfgW netW []).config.action_dim := by
  have h := C2_select_action_range (DQNAgent.init cfgW netW []) (1/2) 7 [0, 0]
    (by decide) (by decide) (by decide)
  exact ⟨by decide, by decide, h.1⟩


/-! Claim C3. -/

theorem sample_empty (b : PrioritizedReplayBuffer) (pw : ℚ → ℚ → ℚ) (stream : ℕ → ℕ)
    (k : ℕ) (beta : ℚ) (h : b.buffer = []) :
    b.sample pw stream k beta = .error .emptyBuffer := by
  rw [PrioritizedReplayBuffer.sample, if_pos (by rw [h]; rfl)]

theorem sample_not_emptyBuffer (b : PrioritizedReplayBuffer) (pw : ℚ → ℚ → ℚ)
    (stream : ℕ → ℕ) (k : ℕ) (beta : ℚ) (h : b.buffer.length ≠ 0) :
    b.sample pw stream k beta ≠ .error .emptyBuffer := by
  simp only [PrioritizedReplayBuffer.sample]
  rw [if_neg h]
  split
  · rename_i e heq
    rw [npRandomChoice] at heq
    split at heq
    · exact absurd heq (by simp)
    · simp only [Except.error.injEq] at heq
      rw [← heq]
      simp
  · simp

/-- C3: sampling from an Experience Store with zero held transitions fails
with the empty-buffer error for every batch size and beta; and for any
agent whose configured batch size is at least 1, `optimize()` can never
surface that error, because it pre-checks the held-transition count
against the batch size before sampling. -/
theorem C3_empty_buffer_error :
    (∀ (b : PrioritizedReplayBuffer) (pw : ℚ → ℚ → ℚ) (stream : ℕ → ℕ) (k : ℕ) (beta : ℚ),
      b.buffer = [] → b.sample pw stream k beta = .error .emptyBuffer) ∧
    (∀ (a : DQNAgent) (pw : ℚ → ℚ → ℚ) (stream : ℕ → ℕ),
      1 ≤ a.config.batch_size →
      a.optimize_model pw stream ≠ .error (.bufferError .emptyBuffer)) := by
  constructor
  · exact sample_empty
  · intro a pw stream hbs
    by_cases hu : a.memory.buffer.length < a.config.batch_size
    · rw [optimize_model_underfull a pw stream hu]
      simp
    · have hne : a.memory.buffer.length ≠ 0 := by omega
      simp only [DQNAgent.optimize_model]
      rw [if_neg hu]
      split
      · rename_i e heq
        have h2 : e ≠ .emptyBuffer := by
          intro hcon
          rw [hcon] at heq
          exact sample_not_emptyBuffer a.memory pw stream a.config.batch_size
            a.config.priority_beta hne heq
        simp only [ne_eq, Except.error.injEq, OptError.bufferError.injEq]
        exact h2
      · simp

/-- Witness for C3: a concrete empty store and a concrete agent. -/
theorem C3_witness :
    ((PrioritizedReplayBuffer.mk0 1 (6/10)).buffer = [] ∧
      (PrioritizedReplayBuffer.mk0 1 (6/10)).sample pwId streamZ 5 (4/10) =
        .error .emptyBuffer) ∧
    (1 ≤ (DQNAgent.init cfgW netW []).config.batch_size ∧
      (DQNAgent.init cfgW netW []).optimize_model pwId streamZ ≠
        .error (.bufferError .emptyBuffer)) :=
  ⟨⟨rfl, C3_empty_buffer_error.1 (PrioritizedReplayBuffer.mk0 1 (6/10)) pwId streamZ 5
      (4/10) rfl⟩,
    by decide, C3_empty_buffer_error.2 (DQNAgent.init cfgW netW []) pwId streamZ
      (by decide)⟩

/-! Claim C10. -/

/-- Success shape of a sample result: no error, exactly `k` transitions,
`k` drawn indices all within the range `[0, n)` of held entries, and `k`
importance weights. -/
def sampleOk (r : Except BufferError (List Transition × List ℕ × List ℚ))
    (n k : ℕ) : Prop :=
  match r with
  | .ok (batch, indices, weights) =>
      batch.length = k ∧ indices.length = k ∧ weights.length = k ∧
        ∀ i ∈ indices, i < n
  | .error _ => False

/-- C10: for every store holding at least one transition whose held
priorities have strictly positive sampled mass (the invariant the agent
maintains, since pushes write 1.0 or the running maximum and priority
write-backs add the positive floor), `sample(batch_size, beta)` succeeds
for every batch size — including batch sizes exceeding the held count,
because drawing is with replacement — and returns exactly `batch_size`
transitions, `batch_size` indices in `[0, N)` and `batch_size` weights. -/
theorem C10_sample_with_replacement (b : PrioritizedReplayBuffer) (pw : ℚ → ℚ → ℚ)
    (stream : ℕ → ℕ) (k : ℕ) (beta : ℚ)
    (hne : b.buffer.length ≠ 0)
    (hlenp : b.buffer.length ≤ b.priorities.length)
    (hpos : ∀ x ∈ (b.priorities.take b.buffer.length).map (fun q => pw q b.alpha), 0 < x) :
    sampleOk (b.sample pw stream k beta) b.buffer.length k := by
  have hrawlen : ((b.priorities.take b.buffer.length).map (fun q => pw q b.alpha)).length =
      b.buffer.length := by
    rw [List.length_map, List.length_take]
    omega
  have hrawne : (b.priorities.take b.buffer.length).map (fun q => pw q b.alpha) ≠ [] := by
    intro hcon
    rw [hcon] at hrawlen
    simp at hrawlen
    omega
  have hS : 0 < ((b.priorities.take b.buffer.length).map (fun q => pw q b.alpha)).sum :=
    List.sum_pos _ hpos hrawne
  have hsum : (((b.priorities.take b.buffer.length).map (fun q => pw q b.alpha)).map
      fun q => q / ((b.priorities.take b.buffer.length).map (fun q => pw q b.alpha)).sum).sum
      = 1 := by
    simp only [div_eq_mul_inv]
    rw [List.sum_map_mul_right]
    rw [List.map_id']
    exact mul_inv_cancel₀ (ne_of_gt hS)
  have hvalid : (((b.priorities.take b.buffer.length).map (fun q => pw q b.alpha)).map
        fun q => q / ((b.priorities.take b.buffer.length).map (fun q => pw q b.alpha)).sum).length
        = b.buffer.length ∧
      (∀ x ∈ ((b.priorities.take b.buffer.length).map (fun q => pw q b.alpha)).map
        fun q => q / ((b.priorities.take b.buffer.length).map (fun q => pw q b.alpha)).sum,
        0 ≤ x) ∧
      (((b.priorities.take b.buffer.length).map (fun q => pw q b.alpha)).map
        fun q => q / ((b.priorities.take b.buffer.length).map (fun q => pw q b.alpha)).sum).sum
        = 1 := by
    refine ⟨by rw [List.length_map, hrawlen], ?_, hsum⟩
    intro x hx
    rw [List.mem_map] at hx
    obtain ⟨q, hq, rfl⟩ := hx
    exact le_of_lt (div_pos (hpos q hq) hS)
  simp only [PrioritizedReplayBuffer.sample]
  rw [if_neg hne, npRandomChoice, if_pos hvalid]
  split
  · rename_i e heq
    simp at heq
  · rename_i indices heq
    simp only [Except.ok.injEq] at heq
    subst heq
    simp only [sampleOk]
    refine ⟨by simp, by simp, by simp, ?_⟩
    intro i hi
    rw [List.mem_map] at hi
    obtain ⟨j, hj, rfl⟩ := hi
    exact Nat.mod_lt _ (by omega)

/-- A second concrete transition for witnesses. -/
def tW2 : Transition := ⟨[1], 1, 2, [1], false⟩

/-- Witness for C10: a store holding 2 transitions sampled with batch size
5 (greater than the held count). -/
theorem C10_witness :
    ((PrioritizedReplayBuffer.mk0 2 (6/10)).pushAll [tW1, tW2]).buffer.length ≠ 0 ∧
    ((PrioritizedReplayBuffer.mk0 2 (6/10)).pushAll [tW1, tW2]).buffer.length ≤
      ((PrioritizedReplayBuffer.mk0 2 (6/10)).pushAll [tW1, tW2]).priorities.length ∧
    sampleOk (((PrioritizedReplayBuffer.mk0 2 (6/10)).pushAll [tW1, tW2]).sample
        pwId streamZ 5 (4/10))
      ((PrioritizedReplayBuffer.mk0 2 (6/10)).pushAll [tW1, tW2]).buffer.length 5 :=
  ⟨by decide, by decide,
    C10_sample_with_replacement _ pwId streamZ 5 (4/10) (by decide) (by decide) (by decide)⟩


/-! Claims C6 and C7: what actually happens on an optimization call. -/

theorem optimize_model_ok_inv (a : DQNAgent) (pw : ℚ → ℚ → ℚ) (stream : ℕ → ℕ)
    (l : ℚ) (a2 : DQNAgent)
    (h : a.optimize_model pw stream = .ok (l, a2)) : l = 0 ∧ a2 = a := by
  by_cases hu : a.memory.buffer.length < a.config.batch_size
  · rw [optimize_model_underfull a pw stream hu] at h
    simp only [Except.ok.injEq, Prod.mk.injEq] at h
    exact ⟨h.1.symm, h.2.symm⟩
  · simp only [DQNAgent.optimize_model] at h
    rw [if_neg hu] at h
    split at h
    · simp at h
    · simp at h

theorem optimize_model_full_nameError (a : DQNAgent) (pw : ℚ → ℚ → ℚ)
    (stream : ℕ → ℕ)
    (hge : ¬ a.memory.buffer.length < a.config.batch_size)
    (batch : List Transition) (indices : List ℕ) (weights : List ℚ)
    (hs : a.memory.sample pw stream a.config.batch_size a.config.priority_beta =
      .ok (batch, indices, weights)) :
    a.optimize_model pw stream = .error (.nameError "F") := by
  simp only [DQNAgent.optimize_model]
  rw [if_neg hge, hs]

/-- A fresh agent under the default configuration: its store is empty
(underfull) and its exploration rate sits strictly above the floor. -/
def agentC6 : DQNAgent := DQNAgent.init {} netW []

/-- A concrete agent whose store holds exactly `batch_size` transitions,
so its optimization call passes the pre-check. -/
def agentW : DQNAgent :=
  { DQNAgent.init cfgW netW [] with
    memory := (PrioritizedReplayBuffer.mk0 2 (6/10)).pushAll [tW1] }

/-- Concrete evaluation: sampling on `agentW` succeeds, returning the one
held transition with index 0 and weight 1. -/
theorem sample_agentW_eval :
    agentW.memory.sample pwId streamZ agentW.config.batch_size
      agentW.config.priority_beta = .ok ([tW1], [0], [1]) := by
  norm_num [agentW, cfgW, DQNAgent.init, PrioritizedReplayBuffer.mk0,
    PrioritizedReplayBuffer.pushAll, PrioritizedReplayBuffer.push,
    PrioritizedReplayBuffer.sample, npRandomChoice, pwId, streamZ, tW1, pyMax,
    List.replicate_succ, List.replicate_zero, List.set_cons_zero,
    List.set_cons_succ, List.take_succ_cons, List.take_zero, List.take_nil,
    List.foldl_cons, List.foldl_nil]

/-- C6 (as the code behaves): no `optimize()` call ever decreases epsilon.
The underfull call is the documented no-op; every call that returns
normally returns the agent — in particular its epsilon — unchanged; and a
call on a sufficiently full store whose sampling succeeds raises
`NameError` at the loss line (`F` is never imported) before the epsilon
update at line 277, leaving the agent unmutated.  The multiplicative
floored decay the claim describes is dead code. -/
theorem C6_epsilon_never_decays (a : DQNAgent) (pw : ℚ → ℚ → ℚ) (stream : ℕ → ℕ) :
    (a.memory.buffer.length < a.config.batch_size →
      a.optimize_model pw stream = .ok (0, a)) ∧
    (∀ (l : ℚ) (a2 : DQNAgent), a.optimize_model pw stream = .ok (l, a2) →
      a2.epsilon = a.epsilon) ∧
    (∀ (batch : List Transition) (indices : List ℕ) (weights : List ℚ),
      ¬ a.memory.buffer.length < a.config.batch_size →
      a.memory.sample pw stream a.config.batch_size a.config.priority_beta =
        .ok (batch, indices, weights) →
      a.optimize_model pw stream = .error (.nameError "F")) := by
  refine ⟨fun h => optimize_model_underfull a pw stream h, ?_, ?_⟩
  · intro l a2 h
    rw [(optimize_model_ok_inv a pw stream l a2 h).2]
  · intro batch indices weights hge hs
    exact optimize_model_full_nameError a pw stream hge batch indices weights hs

/-- Witness for C6: the underfull no-op on the fresh default agent, and
the `NameError` abort on `agentW`, whose sampling concretely succeeds. -/
theorem C6_witness :
    (agentC6.memory.buffer.length < agentC6.config.batch_size ∧
      agentC6.optimize_model pwId streamZ = .ok (0, agentC6)) ∧
    (¬ agentW.memory.buffer.length < agentW.config.batch_size ∧
      agentW.memory.sample pwId streamZ agentW.config.batch_size
        agentW.config.priority_beta = .ok ([tW1], [0], [1]) ∧
      agentW.optimize_model pwId streamZ = .error (.nameError "F")) := by
  have h1 := C6_epsilon_never_decays agentC6 pwId streamZ
  have h2 := C6_epsilon_never_decays agentW pwId streamZ
  exact ⟨⟨by decide, h1.1 (by decide)⟩,
    ⟨by decide, sample_agentW_eval,
      h2.2.2 [tW1] [0] [1] (by decide) sample_agentW_eval⟩⟩

/-- C7 (as the code behaves): `optimize()` never refreshes the target
network.  Every call that returns normally leaves the target exactly as
it was, and a call on a sufficiently full store whose sampling succeeds —
including a call at a step with `steps % target_update == 0`, on which the
claim asserts a hard sync — raises `NameError` at the loss line (`F` is
never imported) before the sync at lines 275-276, leaving the agent
unmutated; the sync is dead code. -/
theorem C7_target_never_synced (a : DQNAgent) (pw : ℚ → ℚ → ℚ) (stream : ℕ → ℕ) :
    (∀ (l : ℚ) (a2 : DQNAgent), a.optimize_model pw stream = .ok (l, a2) →
      a2.target_net = a.target_net) ∧
    (∀ (batch : List Transition) (indices : List ℕ) (weights : List ℚ),
      a.steps % a.config.target_update = 0 →
      ¬ a.memory.buffer.length < a.config.batch_size →
      a.memory.sample pw stream a.config.batch_size a.config.priority_beta =
        .ok (batch, indices, weights) →
      a.optimize_model pw stream = .error (.nameError "F")) := by
  constructor
  · intro l a2 h
    rw [(optimize_model_ok_inv a pw stream l a2 h).2]
  · intro batch indices weights h0 hge hs
    exact optimize_model_full_nameError a pw stream hge batch indices weights hs

/-- Witness for C7: on `agentW` the step counter is 0 and
`target_update = 1`, so `0 % 1 = 0` — the very call the claim says
performs a hard sync — yet the call aborts with the `NameError`; and the
underfull no-op on the fresh agent leaves the target untouched. -/
theorem C7_witness :
    (agentC6.optimize_model pwId streamZ = .ok (0, agentC6) ∧
      agentC6.target_net = agentC6.target_net) ∧
    (agentW.steps % agentW.config.target_update = 0 ∧
      ¬ agentW.memory.buffer.length < agentW.config.batch_size ∧
      agentW.optimize_model pwId streamZ = .error (.nameError "F")) := by
  have hC := C7_target_never_synced agentC6 pwId streamZ
  have hW := C7_target_never_synced agentW pwId streamZ
  have hok : agentC6.optimize_model pwId streamZ = .ok (0, agentC6) :=
    optimize_model_underfull agentC6 pwId streamZ (by decide)
  exact ⟨⟨hok, hC.1 0 agentC6 hok⟩,
    ⟨by decide, by decide,
      hW.2 [tW1] [0] [1] (by decide) (by decide) sample_agentW_eval⟩⟩

/-! Claim C5. -/

/-- C5: `push` stores the new transition at the current write cursor, with
priority 1.0 when the buffer is empty and the current maximum priority
among held entries otherwise (stated for every buffer satisfying the
structural invariants the class maintains: priority array of capacity
length, cursor in range and at the append position while filling, held
priorities non-negative, unheld priority slots still zero); once the
buffer is full, the cursor points at the oldest held transition, so the
push overwrites exactly the oldest entry; and `push` is a total function,
returning no value and raising no error. -/
theorem C5_push_behaviour (b : PrioritizedReplayBuffer) (t : Transition)
    (hplen : b.priorities.length = b.capacity)
    (hpos : b.position < b.capacity)
    (hble : b.buffer.length ≤ b.capacity)
    (hcur : b.buffer.length < b.capacity → b.position = b.buffer.length)
    (hnn : ∀ x ∈ b.priorities.take b.buffer.length, 0 ≤ x)
    (hz : ∀ x ∈ b.priorities.drop b.buffer.length, x = 0) :
    (b.buffer = [] → (b.push t).priorities[b.position]? = some 1) ∧
    (b.buffer ≠ [] →
      (b.push t).priorities[b.position]? =
        some (pyMax (b.priorities.take b.buffer.length))) ∧
    ((b.push t).buffer[b.position]? = some t) ∧
    (∀ (C : ℕ) (al : ℚ) (L : List Transition), 0 < C → C ≤ L.length →
      ((PrioritizedReplayBuffer.mk0 C al).pushAll L).buffer[
        ((PrioritizedReplayBuffer.mk0 C al).pushAll L).position]? =
        L[L.length - C]? ∧
      (((PrioritizedReplayBuffer.mk0 C al).pushAll L).push t).buffer[
        ((PrioritizedReplayBuffer.mk0 C al).pushAll L).position]? = some t) := by
  have hposlen : b.position < b.priorities.length := by rw [hplen]; exact hpos
  refine ⟨?_, ?_, ?_, ?_⟩
  · intro hemp
    simp only [PrioritizedReplayBuffer.push]
    rw [hemp]
    have hone : (if ([] : List Transition).isEmpty = true then (1 : ℚ)
        else pyMax b.priorities) = 1 := rfl
    rw [hone]
    exact List.getElem?_set_self hposlen
  · intro hne
    simp only [PrioritizedReplayBuffer.push]
    rw [if_neg (by rw [List.isEmpty_eq_false.mpr hne]; simp)]
    have hAlen : (b.priorities.take b.buffer.length).length = b.buffer.length := by
      rw [List.length_take]
      omega
    have hAne : b.priorities.take b.buffer.length ≠ [] := by
      intro hcon
      rw [hcon] at hAlen
      simp at hAlen
      exact hne (List.length_eq_zero.mp hAlen.symm)
    have hPP : pyMax b.priorities = pyMax (b.priorities.take b.buffer.length) := by
      conv_lhs => rw [← List.take_append_drop b.buffer.length b.priorities]
      exact pyMax_append_zeros _ _ hAne hz (pyMax_nonneg _ hAne hnn)
    rw [← hPP]
    exact List.getElem?_set_self hposlen
  · simp only [PrioritizedReplayBuffer.push]
    by_cases hfill : b.buffer.length < b.capacity
    · rw [if_pos hfill, hcur hfill]
      exact List.getElem?_concat_length b.buffer t
    · rw [if_neg hfill]
      exact List.getElem?_set_self (by omega)
  · intro C al L hC hCL
    obtain ⟨hcap, hpos2, hbuf⟩ := pushAll_closed_form C hC al L
    have hmC : L.length % C < C := Nat.mod_lt _ hC
    have hblen : ((PrioritizedReplayBuffer.mk0 C al).pushAll L).buffer.length = C := by
      rw [hbuf]
      rcases eq_or_lt_of_le hCL with hEq | hGt
      · rw [if_pos (le_of_eq hEq.symm)]
        omega
      · rw [if_neg (by omega), List.length_append, List.length_take,
          List.length_drop, List.length_drop]
        omega
    constructor
    · rw [hbuf, hpos2]
      rcases eq_or_lt_of_le hCL with hEq | hGt
      · rw [if_pos (le_of_eq hEq.symm)]
        have h0 : L.length % C = 0 := by rw [← hEq, Nat.mod_self]
        rw [h0, ← hEq, Nat.sub_self]
      · rw [if_neg (by omega)]
        have hAlen : (L.drop (L.length - L.length % C)).length = L.length % C := by
          rw [List.length_drop]
          omega
        rw [List.getElem?_append, if_neg (by rw [hAlen]; omega), hAlen, Nat.sub_self,
          List.getElem?_take, if_pos (by omega), List.getElem?_drop, Nat.add_zero]
    · simp only [PrioritizedReplayBuffer.push]
      rw [if_neg (by omega)]
      exact List.getElem?_set_self (by omega)


/-- A third concrete transition for witnesses. -/
def tW3 : Transition := ⟨[2], 2, 3, [2], false⟩

/-- A concrete partially-filled buffer (capacity 2 holding 1 transition). -/
def bW5 : PrioritizedReplayBuffer := (PrioritizedReplayBuffer.mk0 2 (6/10)).pushAll [tW1]

/-- A concrete full buffer: capacity 2 after 3 pushes. -/
def bF5 : PrioritizedReplayBuffer :=
  (PrioritizedReplayBuffer.mk0 2 (6/10)).pushAll [tW1, tW2, tW1]

/-- Witness for C5 on concrete buffers: the invariant hypotheses hold, the
push lands at the cursor with the held maximum priority, and on the full
buffer the cursor holds the oldest transition (`tW2`, pushed 2 pushes ago)
which the next push overwrites. -/
theorem C5_witness :
    (bW5.priorities.length = bW5.capacity ∧ bW5.position < bW5.capacity ∧
      bW5.buffer.length ≤ bW5.capacity ∧
      (bW5.buffer.length < bW5.capacity → bW5.position = bW5.buffer.length) ∧
      (∀ x ∈ bW5.priorities.take bW5.buffer.length, 0 ≤ x) ∧
      (∀ x ∈ bW5.priorities.drop bW5.buffer.length, x = 0)) ∧
    ((bW5.push tW3).priorities[bW5.position]? =
      some (pyMax (bW5.priorities.take bW5.buffer.length))) ∧
    ((bW5.push tW3).buffer[bW5.position]? = some tW3) ∧
    bF5.buffer[bF5.position]? = some tW2 ∧
    (bF5.push tW3).buffer[bF5.position]? = some tW3 := by
  have h := C5_push_behaviour bW5 tW3 (by decide) (by decide) (by decide) (by decide)
    (by decide) (by decide)
  have h4 := h.2.2.2 2 (6/10) [tW1, tW2, tW1] (by decide) (by decide)
  exact ⟨⟨by decide, by decide, by decide, by decide, by decide, by decide⟩,
    h.2.1 (by decide), h.2.2.1, h4.1.trans (by decide), h4.2⟩


/-! Claim C8. -/

/-- C8 (as the code behaves): the discretized state produced by
`discretize_state` always has 5 components, while the Q-table is created
with shape `STATE_BINS + (len(ACTIONS),) = (12, 12, 6, 6, 3)` — only 5
dimensions because `STATE_BINS` has 4 entries.  `update` therefore indexes
the 5-dimensional table with the 6 indices `state + (action,)` and always
raises numpy's too-many-indices `IndexError` instead of performing the
tabular Q-learning update. -/
theorem C8_update_index_error (s s2 : List ℤ) (a : ℤ) (r : ℚ) (hs : s.length = 5) :
    (∀ (ball : BallState) (paddle : PaddlePos),
      (QAgent.discretize_state ball paddle).length = 5) ∧
    QAgent.init.q_table.shape.length = 5 ∧
    QAgent.init.update s a r s2 = .error .tooManyIndices := by
  refine ⟨fun ball paddle => rfl, rfl, ?_⟩
  have hcond : QAgent.init.q_table.shape.length < (s ++ [a]).length := by
    rw [List.length_append, hs, List.length_singleton]
    decide
  simp only [QAgent.update, npSliceMax]
  rw [if_pos hcond]

/-- Witness for C8: the failing concrete call
`update((0,0,0,0,0), 0, 1.0, (0,0,0,0,0))` on a fresh tabular agent. -/
theorem C8_witness :
    ([(0 : ℤ), 0, 0, 0, 0].length = 5) ∧
    QAgent.init.update [0, 0, 0, 0, 0] 0 1 [0, 0, 0, 0, 0] = .error .tooManyIndices :=
  ⟨by decide, (C8_update_index_error [0, 0, 0, 0, 0] [0, 0, 0, 0, 0] 0 1 (by decide)).2.2⟩

/-! Claim C9. -/

/-- A network distinct from `netW`, playing the stored checkpoint
parameters. -/
def netP : DQNetwork :=
  ⟨⟨[], []⟩, ⟨[], []⟩, ⟨[[], [], []], [1, 1, 1]⟩⟩

/-- A concrete agent about to load a checkpoint. -/
def agentL : DQNAgent := DQNAgent.init cfgW netW []

/-- A checkpoint readable by `torch.load` but missing the `target_net`
key. -/
def ckptBad : Checkpoint := ⟨some netP, none, some [], some 1, some 0⟩

/-- Counterexample to C9 as stated: loading a checkpoint that fails at the
`target_net` key leaves the agent PARTIALLY mutated — its online network
has already been overwritten with the checkpoint's parameters — and the
surfaced error is the bare underlying `KeyError`, not a wrapping
`CheckpointError`; so the prior in-memory state is not left entirely
unchanged on failure. -/
theorem C9_counterexample :
    agentL.load_model (some ckptBad) =
      ({ agentL with policy_net := netP }, some (.keyError "target_net")) ∧
    netP ≠ agentL.policy_net :=
  ⟨rfl, by decide⟩

/-- C9 (amended): `load_model` re-raises the underlying exception
unwrapped; an unreadable file (failure before any assignment) leaves the
agent unchanged, a missing `policy_net` key likewise, but a failure at a
later key keeps every assignment already made (partial mutation is
observable), and a complete checkpoint replaces all five stored fields. -/
theorem C9_load_failure_behaviour (a : DQNAgent) (file : Option Checkpoint) :
    (file = none → a.load_model file = (a, some .loadFailure)) ∧
    (∀ ckpt, file = some ckpt → ckpt.policy_net = none →
      a.load_model file = (a, some (.keyError "policy_net"))) ∧
    (∀ ckpt p, file = some ckpt → ckpt.policy_net = some p → ckpt.target_net = none →
      a.load_model file = ({ a with policy_net := p }, some (.keyError "target_net"))) ∧
    (∀ p tg o e st, file = some ⟨some p, some tg, some o, some e, some st⟩ →
      a.load_model file =
        ({ a with
            policy_net := p
            target_net := tg
            optimizerState := o
            epsilon := e
            steps := st }, none)) := by
  refine ⟨?_, ?_, ?_, ?_⟩
  · intro h
    subst h
    rfl
  · intro ckpt h hp
    subst h
    simp only [DQNAgent.load_model, hp]
  · intro ckpt p h hp ht
    subst h
    simp only [DQNAgent.load_model, hp, ht]
  · intro p tg o e st h
    subst h
    rfl

/-- Witness for the amended C9: the unreadable-file case and the concrete
partially-mutating load of `ckptBad`. -/
theorem C9_witness :
    agentL.load_model none = (agentL, some .loadFailure) ∧
    ckptBad.policy_net = some netP ∧
    ckptBad.target_net = none ∧
    agentL.load_model (some ckptBad) =
      ({ agentL with policy_net := netP }, some (.keyError "target_net")) := by
  have h1 := C9_load_failure_behaviour agentL none
  have h2 := C9_load_failure_behaviour agentL (some ckptBad)
  exact ⟨h1.1 rfl, rfl, rfl, h2.2.2.1 ckptBad netP rfl rfl rfl⟩

end Pongverse
